import Mathlib

/-!
# Verification of `fetch_weather.py` (NamHillridge/daily-data)

Shallow embedding of the single-file pipeline `src/fetch_weather.py`
(fetch → flatten → append-to-CSV) and proofs of the specification claims.

Modelling conventions:
* A parsed JSON value (the result of the Python call `json.loads`) is the
  inductive type `JSON`.  An `obj` carries its key/value pairs in insertion
  order; Python dicts have unique keys, so lookup takes the first binding.
  JSON numbers keep the int/float distinction Python makes (`int`/`float`);
  a float is carried exactly as its decimal literal, mantissa over a power
  of ten, which is faithful here because the program never computes with
  floats, only moves them around and prints them.
* Python `None` is `JSON.null` (dict `.get` of a missing key yields `None`).
* Exceptions are explicit: operations that can raise return
  `Except PyErr _`, where `PyErr` names the Python exception class.
* The wall clock (`datetime.now()`) is a parameter: `flatten_weather_data`
  takes the ISO timestamp string `now`, `get_csv_filename` takes `year`.
* The filesystem is a map from path to optional file contents, a file being
  its list of lines (the csv module's `\r\n` terminators are abstracted away).
-/

/-- A parsed JSON value / loosely-typed Python object, as produced by
`json.loads`.  `int` and `float` mirror the two numeric types of Python;
`float m e` is the decimal value `m / 10 ^ e` (e.g. `float 1605 2` is
`16.05`), exact for every decimal the API serializes. -/
inductive JSON where
  | null
  | bool (b : Bool)
  | int (n : Int)
  | float (m : Int) (e : Nat)
  | str (s : String)
  | arr (xs : List JSON)
  | obj (kvs : List (String × JSON))

/-- Python exception classes raised by the operations the program uses. -/
inductive PyErr where
  | attributeError
  | indexError
  | keyError
  | typeError
  | valueError
deriving DecidableEq

/-- The exception class name, as Python would print it. -/
def pyErrName : PyErr → String
  | .attributeError => "AttributeError"
  | .indexError => "IndexError"
  | .keyError => "KeyError"
  | .typeError => "TypeError"
  | .valueError => "ValueError"

/-- First binding of `key` in a dict's pair list (Python dicts have unique
keys, so first = only). -/
def lookupKey : List (String × JSON) → String → Option JSON
  | [], _ => none
  | (k, v) :: rest, key => if k = key then some v else lookupKey rest key

/-- Python `d.get(key)`: the value, or `None` when absent; raises
`AttributeError` when `d` is not a dict. -/
def pyGet (d : JSON) (key : String) : Except PyErr JSON :=
  match d with
  | .obj kvs => .ok ((lookupKey kvs key).getD .null)
  | _ => .error .attributeError

/-- Python `d.get(key, default)`; raises `AttributeError` when `d` is not a
dict. -/
def pyGetD (d : JSON) (key : String) (default : JSON) : Except PyErr JSON :=
  match d with
  | .obj kvs => .ok ((lookupKey kvs key).getD default)
  | _ => .error .attributeError

/-- Python subscript `x[0]`: head of a list (raising `IndexError` on `[]`),
first character of a string, `KeyError` for a dict subscripted with the int
key `0`, `TypeError` for non-subscriptable values. -/
def pyIndex0 (d : JSON) : Except PyErr JSON :=
  match d with
  | .arr [] => .error .indexError
  | .arr (x :: _) => .ok x
  | .str s => if s.isEmpty then .error .indexError
              else .ok (.str (String.singleton s.front))
  | .obj _ => .error .keyError
  | _ => .error .typeError

/-- The source's nested-lookup idiom `data.get(k1, {}).get(k2)`. -/
def pyGet2 (d : JSON) (k1 k2 : String) : Except PyErr JSON := do
  let t ← pyGetD d k1 (.obj [])
  pyGet t k2

/-- The source's weather-list idiom `data.get('weather', [{}])[0].get(k)`. -/
def pyWeather0 (d : JSON) (k : String) : Except PyErr JSON := do
  let w ← pyGetD d "weather" (.arr [.obj []])
  let w0 ← pyIndex0 w
  pyGet w0 k

/-- A flattened record: a Python dict as an ordered pair list. -/
abbrev Record := List (String × JSON)

/-- The 24 data-derived entries of the dict literal in
`flatten_weather_data` (lines 30–53 of the source), evaluated in source
order; the first lookup to raise aborts the whole dict construction. -/
def flatten_fields (data : JSON) : Except PyErr Record := do
  let api_timestamp ← pyGet data "dt"
  let city_id ← pyGet data "id"
  let city_name ← pyGet data "name"
  let country ← pyGet2 data "sys" "country"
  let lat ← pyGet2 data "coord" "lat"
  let lon ← pyGet2 data "coord" "lon"
  let timezone ← pyGet data "timezone"
  let weather_id ← pyWeather0 data "id"
  let weather_main ← pyWeather0 data "main"
  let weather_description ← pyWeather0 data "description"
  let temp ← pyGet2 data "main" "temp"
  let feels_like ← pyGet2 data "main" "feels_like"
  let temp_min ← pyGet2 data "main" "temp_min"
  let temp_max ← pyGet2 data "main" "temp_max"
  let pressure ← pyGet2 data "main" "pressure"
  let humidity ← pyGet2 data "main" "humidity"
  let sea_level_pressure ← pyGet2 data "main" "sea_level"
  let grnd_level_pressure ← pyGet2 data "main" "grnd_level"
  let visibility ← pyGet data "visibility"
  let wind_speed ← pyGet2 data "wind" "speed"
  let wind_direction ← pyGet2 data "wind" "deg"
  let clouds_all ← pyGet2 data "clouds" "all"
  let sunrise ← pyGet2 data "sys" "sunrise"
  let sunset ← pyGet2 data "sys" "sunset"
  pure [
    ("api_timestamp", api_timestamp),
    ("city_id", city_id),
    ("city_name", city_name),
    ("country", country),
    ("lat", lat),
    ("lon", lon),
    ("timezone", timezone),
    ("weather_id", weather_id),
    ("weather_main", weather_main),
    ("weather_description", weather_description),
    ("temp", temp),
    ("feels_like", feels_like),
    ("temp_min", temp_min),
    ("temp_max", temp_max),
    ("pressure", pressure),
    ("humidity", humidity),
    ("sea_level_pressure", sea_level_pressure),
    ("grnd_level_pressure", grnd_level_pressure),
    ("visibility", visibility),
    ("wind_speed", wind_speed),
    ("wind_direction", wind_direction),
    ("clouds_all", clouds_all),
    ("sunrise", sunrise),
    ("sunset", sunset)]

/-- `flatten_weather_data` (source lines 26–54).  The dict literal's first
entry, `'timestamp': datetime.now().isoformat()`, is the parameter `now`;
it cannot raise, so prepending it to the 24 data-derived entries is
observationally the Python evaluation order. -/
def flatten_weather_data (now : String) (data : JSON) : Except PyErr Record :=
  (flatten_fields data).map (fun rest => ("timestamp", JSON.str now) :: rest)

/-! ### Python string conversion (`str(value)`), as the csv module and
f-strings apply it -/

/-- Python `str` of the float `m / 10 ^ e`: sign, integer part, `.`,
fraction digits with trailing zeros stripped but at least one digit kept
(`"33.0"` for an integral float), matching the shortest-repr printing of
Python on decimal values. -/
def floatStr (m : Int) (e : Nat) : String :=
  let sign := if m < 0 then "-" else ""
  let n := m.natAbs
  let ds := Nat.toDigits 10 (n % 10 ^ e)
  let padded := List.replicate (e - ds.length) '0' ++ ds
  let frac := (padded.reverse.dropWhile (fun c => c = '0')).reverse
  let frac := if frac.isEmpty then ['0'] else frac
  sign ++ toString (n / 10 ^ e) ++ "." ++ String.mk frac

mutual
/-- Python `repr` of a parsed JSON value (string escaping elided;
`\x27` is the single-quote character). -/
def pyRepr : JSON → String
  | .null => "None"
  | .bool true => "True"
  | .bool false => "False"
  | .int n => toString n
  | .float m e => floatStr m e
  | .str s => "\x27" ++ s ++ "\x27"
  | .arr xs => "[" ++ String.intercalate ", " (pyReprElems xs) ++ "]"
  | .obj kvs => "\x7b" ++ String.intercalate ", " (pyReprMembers kvs) ++ "\x7d"

def pyReprElems : List JSON → List String
  | [] => []
  | x :: xs => pyRepr x :: pyReprElems xs

def pyReprMembers : List (String × JSON) → List String
  | [] => []
  | (k, v) :: kvs => ("\x27" ++ k ++ "\x27: " ++ pyRepr v) :: pyReprMembers kvs
end

/-- Python `str(value)`: the string itself for a string, `repr` otherwise
(they agree on every non-string the program handles). -/
def pyStr : JSON → String
  | .str s => s
  | v => pyRepr v

/-! ### The Writer: `append_to_csv` (source lines 57–78) -/

/-- The `fieldnames` list hardcoded in `append_to_csv`
(source lines 62–69), in order. -/
def fieldnames : List String := [
  "timestamp", "api_timestamp", "city_id", "city_name", "country",
  "lat", "lon", "timezone", "weather_id", "weather_main",
  "weather_description", "temp", "feels_like", "temp_min", "temp_max",
  "pressure", "humidity", "sea_level_pressure", "grnd_level_pressure",
  "visibility", "wind_speed", "wind_direction", "clouds_all",
  "sunrise", "sunset"]

/-- One CSV cell, as `csv.DictWriter` renders it: a missing key falls back
to the restval (`None`), and `None` serializes as the empty field;
everything else is `str(value)`. -/
def pyCsvCell : Option JSON → String
  | none => ""
  | some .null => ""
  | some v => pyStr v

/-- Minimal CSV quoting (`QUOTE_MINIMAL`): quote a cell containing the
delimiter, the quote char, or a line-terminator char, doubling embedded
quotes. -/
def csvQuote (s : String) : String :=
  if s.any (fun c => c = ',' || c = '"' || c = '\n' || c = '\r') then
    "\"" ++ (s.replace "\"" "\"\"") ++ "\""
  else s

/-- `csv.DictWriter.writerow(data)`: raises `ValueError` when the dict has a
key outside `fieldnames`; otherwise the row's cells are the fieldnames'
values in fieldname order. -/
def writerow (fnames : List String) (data : Record) : Except PyErr (List String) :=
  if data.all (fun kv => fnames.contains kv.1) then
    .ok (fnames.map (fun f => pyCsvCell (lookupKey data f)))
  else .error .valueError

/-- The rendered data row for a record. -/
def csvRowLine (data : Record) : String :=
  String.intercalate "," ((fieldnames.map (fun f => pyCsvCell (lookupKey data f))).map csvQuote)

/-- The header row `writer.writeheader()` produces. -/
def csvHeaderLine : String :=
  String.intercalate "," (fieldnames.map csvQuote)

/-- `append_to_csv` (source lines 57–78) as a transition on one file's
contents: `none` means the path does not exist.  Returns the new contents
and whether the call completed (false = `writerow` raised `ValueError`, in
which case the header — already written when the file was fresh — remains
but no data row is appended). -/
def append_to_csv (data : Record) (file : Option (List String)) : List String × Bool :=
  let file_exists := file.isSome
  let contents0 := file.getD []
  let contents1 := if file_exists then contents0 else contents0 ++ [csvHeaderLine]
  match writerow fieldnames data with
  | .ok cells => (contents1 ++ [String.intercalate "," (cells.map csvQuote)], true)
  | .error _ => (contents1, false)

/-! ### Output path resolution (source lines 81–86 and 110) -/

/-- `get_csv_filename` (source lines 81–86):
`f'{year}-{lat}-{lon}.csv'` with `lat = data.get('lat')`,
`lon = data.get('lon')` from the flattened record, formatted by `str`. -/
def get_csv_filename (year : Nat) (data : Record) : String :=
  let lat := (lookupKey data "lat").getD .null
  let lon := (lookupKey data "lon").getD .null
  toString year ++ "-" ++ pyStr lat ++ "-" ++ pyStr lon ++ ".csv"

/-- Line 110: `os.getenv('CSV_OUTPUT_PATH') or get_csv_filename(flat_data)`.
Python's `or` takes the fallback both when the variable is unset (`None`)
and when it is set to the empty string (falsy). -/
def resolve_csv_path (envValue : Option String) (fallback : String) : String :=
  match envValue with
  | some s => if s.isEmpty then fallback else s
  | none => fallback

/-! ### The Fetcher: `fetch_weather_data` (source lines 15–23) -/

/-- Outcome of the network interaction `urlopen(api_url)` + body read, the
Fetcher's input: either the transport raised `URLError`, or a body arrived
and `json.loads` on it either parsed to a value or raised
`JSONDecodeError` (carried as the decode-error message). -/
inductive NetResult where
  | urlError (msg : String)
  | response (parse : Except String JSON)

/-- How a call to the Fetcher ends. -/
inductive FetchResult where
  | ok (data : JSON)
  | exited (code : Nat) (stderrMsg : String)
  | uncaught (excMsg : String)

/-- `fetch_weather_data` (source lines 15–23): `except URLError` prints
`Error fetching data: {e}` to stderr and calls `sys.exit(1)`; a
`json.JSONDecodeError` is not a `URLError`, so it escapes the handler and
propagates. -/
def fetch_weather_data (net : NetResult) : FetchResult :=
  match net with
  | .urlError e => .exited 1 ("Error fetching data: " ++ e)
  | .response (.error e) => .uncaught e
  | .response (.ok d) => .ok d

/-! ### `main` (source lines 89–111) -/

/-- How a process run ends. -/
inductive MainResult where
  | success (path : String)
  | exited (code : Nat) (stderrMsg : String)
  | uncaught (excMsg : String)

/-- `main` (source lines 89–111) from the fetch onwards, over a filesystem
mapping paths to contents.  URL construction (lines 91–100) only shapes
the request already abstracted into `net`.  Any exception escaping
`flatten_weather_data` or `append_to_csv` is uncaught in `main`. -/
def run_main (net : NetResult) (now : String) (year : Nat)
    (envCsvPath : Option String) (fs : String → Option (List String)) :
    MainResult × (String → Option (List String)) :=
  match fetch_weather_data net with
  | .exited code msg => (.exited code msg, fs)
  | .uncaught e => (.uncaught e, fs)
  | .ok wd =>
    match flatten_weather_data now wd with
    | .error e => (.uncaught (pyErrName e), fs)
    | .ok flat =>
      let csv_path := resolve_csv_path envCsvPath (get_csv_filename year flat)
      let result := append_to_csv flat (fs csv_path)
      let fs1 := fun p => if p = csv_path then some result.1 else fs p
      if result.2 then (.success csv_path, fs1)
      else (.uncaught (pyErrName .valueError), fs1)

/-! ### Shape predicates and concrete inputs used by the theorems -/

/-- Is the value a JSON object (a Python dict)? -/
def isObj : JSON → Bool
  | .obj _ => true
  | _ => false

/-- A nested container consulted via `data.get(k, {}).get(...)` is usable
when absent (the `{}` default applies) or itself an object. -/
def goodParent : Option JSON → Bool
  | none => true
  | some (.obj _) => true
  | _ => false

/-- The `weather` value is usable by `data.get('weather', [{}])[0].get(...)`
when absent (the default `[{}]` applies) or a non-empty list whose first
element is an object. -/
def goodWeather : Option JSON → Bool
  | none => true
  | some (.arr (.obj _ :: _)) => true
  | _ => false

/-- A top-level object on which every lookup chain of the Flattener
completes without raising: each consulted parent key, where present, maps
to an object, and `weather`, where present, is a non-empty list with an
object head. -/
def wellShaped : JSON → Bool
  | .obj kvs =>
    goodParent (lookupKey kvs "sys") && goodParent (lookupKey kvs "coord") &&
    goodParent (lookupKey kvs "main") && goodParent (lookupKey kvs "wind") &&
    goodParent (lookupKey kvs "clouds") && goodWeather (lookupKey kvs "weather")
  | _ => false

/-- The end-to-end example input of §8 of the spec (floats written as
decimal pairs: `float 1605 2` = `16.05`). -/
def exampleInput : JSON := .obj [
  ("dt", .int 1700000000), ("id", .int 42), ("name", .str "Danang"),
  ("sys", .obj [("country", .str "VN"), ("sunrise", .int 1), ("sunset", .int 2)]),
  ("coord", .obj [("lat", .float 1605 2), ("lon", .float 1082 1)]),
  ("weather", .arr [.obj [("id", .int 800), ("main", .str "Clear"),
    ("description", .str "clear sky")]]),
  ("main", .obj [("temp", .float 301 1), ("feels_like", .float 330 1),
    ("pressure", .int 1008), ("humidity", .int 70)]),
  ("visibility", .int 10000),
  ("wind", .obj [("speed", .float 25 1), ("deg", .int 90)]),
  ("clouds", .obj [("all", .int 5)]),
  ("timezone", .int 25200)]

/-- The record the Flattener produces for `exampleInput` at clock reading
`2023-11-14T12:00:00`. -/
def exampleOutput : Record := [
  ("timestamp", .str "2023-11-14T12:00:00"),
  ("api_timestamp", .int 1700000000),
  ("city_id", .int 42),
  ("city_name", .str "Danang"),
  ("country", .str "VN"),
  ("lat", .float 1605 2),
  ("lon", .float 1082 1),
  ("timezone", .int 25200),
  ("weather_id", .int 800),
  ("weather_main", .str "Clear"),
  ("weather_description", .str "clear sky"),
  ("temp", .float 301 1),
  ("feels_like", .float 330 1),
  ("temp_min", .null),
  ("temp_max", .null),
  ("pressure", .int 1008),
  ("humidity", .int 70),
  ("sea_level_pressure", .null),
  ("grnd_level_pressure", .null),
  ("visibility", .int 10000),
  ("wind_speed", .float 25 1),
  ("wind_direction", .int 90),
  ("clouds_all", .int 5),
  ("sunrise", .int 1),
  ("sunset", .int 2)]

/-- A small record for the Writer witnesses. -/
def wRecord1 : Record := [("timestamp", .str "t1"), ("city_name", .str "Danang")]

/-- A second small record for the Writer witnesses. -/
def wRecord2 : Record := [("timestamp", .str "t2")]

/-- A flattened record carrying only coordinates, for the filename
witnesses. -/
def wFlat : Record := [("lat", .float 1605 2), ("lon", .float 1082 1)]

/-! ### Helper lemmas -/

theorem except_bind_eq_ok {ε α β : Type} {x : Except ε α} {f : α → Except ε β} {r : β} :
    (x.bind f = .ok r) ↔ ∃ a, x = .ok a ∧ f a = .ok r := by
  cases x with
  | ok a => simp [Except.bind]
  | error e => simp [Except.bind]

theorem except_isOk_iff {ε α : Type} {e : Except ε α} :
    e.isOk = true ↔ ∃ a, e = .ok a := by
  cases e <;> simp [Except.isOk, Except.toBool]

theorem flatten_fields_keys {d : JSON} {l : Record} (h : flatten_fields d = .ok l) :
    l.map Prod.fst = fieldnames.tail := by
  simp only [flatten_fields, bind, Except.instMonad] at h
  simp only [except_bind_eq_ok, Except.pure, Except.ok.injEq] at h
  obtain ⟨a1, -, a2, -, a3, -, a4, -, a5, -, a6, -, a7, -, a8, -, a9, -, a10, -,
    a11, -, a12, -, a13, -, a14, -, a15, -, a16, -, a17, -, a18, -, a19, -, a20, -,
    a21, -, a22, -, a23, -, a24, -, hl⟩ := h
  rw [← hl]
  rfl

theorem pyGet2_ok (kvs : List (String × JSON)) (k1 k2 : String)
    (h : goodParent (lookupKey kvs k1) = true) :
    ∃ v, pyGet2 (JSON.obj kvs) k1 k2 = .ok v := by
  have hrw : pyGet2 (JSON.obj kvs) k1 k2 = pyGet ((lookupKey kvs k1).getD (.obj [])) k2 := rfl
  rw [hrw]
  rcases hk : lookupKey kvs k1 with _ | v
  · exact ⟨.null, rfl⟩
  · rw [hk] at h
    rcases v with _ | b | n | m | s | xs | kvs2 <;> simp [goodParent] at h
    exact ⟨_, rfl⟩

theorem pyWeather0_ok (kvs : List (String × JSON)) (k : String)
    (h : goodWeather (lookupKey kvs "weather") = true) :
    ∃ v, pyWeather0 (JSON.obj kvs) k = .ok v := by
  have hrw : pyWeather0 (JSON.obj kvs) k =
      (pyIndex0 ((lookupKey kvs "weather").getD (.arr [.obj []]))).bind
        (fun w0 => pyGet w0 k) := rfl
  rw [hrw]
  rcases hk : lookupKey kvs "weather" with _ | v
  · exact ⟨.null, rfl⟩
  · rw [hk] at h
    rcases v with _ | b | n | m | s | xs | kvs2 <;> simp [goodWeather] at h
    rcases xs with _ | ⟨x, rest⟩
    · simp [goodWeather] at h
    · rcases x with _ | b | n | m | s | xs2 | kvs3 <;> simp [goodWeather] at h
      exact ⟨_, rfl⟩

theorem flatten_fields_ok (kvs : List (String × JSON))
    (h : wellShaped (JSON.obj kvs) = true) :
    ∃ l, flatten_fields (JSON.obj kvs) = .ok l := by
  simp only [wellShaped, Bool.and_eq_true] at h
  obtain ⟨⟨⟨⟨⟨hsys, hcoord⟩, hmain⟩, hwind⟩, hclouds⟩, hweather⟩ := h
  obtain ⟨v1, h1⟩ := pyGet2_ok kvs "sys" "country" hsys
  obtain ⟨v2, h2⟩ := pyGet2_ok kvs "coord" "lat" hcoord
  obtain ⟨v3, h3⟩ := pyGet2_ok kvs "coord" "lon" hcoord
  obtain ⟨v4, h4⟩ := pyWeather0_ok kvs "id" hweather
  obtain ⟨v5, h5⟩ := pyWeather0_ok kvs "main" hweather
  obtain ⟨v6, h6⟩ := pyWeather0_ok kvs "description" hweather
  obtain ⟨v7, h7⟩ := pyGet2_ok kvs "main" "temp" hmain
  obtain ⟨v8, h8⟩ := pyGet2_ok kvs "main" "feels_like" hmain
  obtain ⟨v9, h9⟩ := pyGet2_ok kvs "main" "temp_min" hmain
  obtain ⟨v10, h10⟩ := pyGet2_ok kvs "main" "temp_max" hmain
  obtain ⟨v11, h11⟩ := pyGet2_ok kvs "main" "pressure" hmain
  obtain ⟨v12, h12⟩ := pyGet2_ok kvs "main" "humidity" hmain
  obtain ⟨v13, h13⟩ := pyGet2_ok kvs "main" "sea_level" hmain
  obtain ⟨v14, h14⟩ := pyGet2_ok kvs "main" "grnd_level" hmain
  obtain ⟨v15, h15⟩ := pyGet2_ok kvs "wind" "speed" hwind
  obtain ⟨v16, h16⟩ := pyGet2_ok kvs "wind" "deg" hwind
  obtain ⟨v17, h17⟩ := pyGet2_ok kvs "clouds" "all" hclouds
  obtain ⟨v18, h18⟩ := pyGet2_ok kvs "sys" "sunrise" hsys
  obtain ⟨v19, h19⟩ := pyGet2_ok kvs "sys" "sunset" hsys
  rw [← except_isOk_iff]
  simp only [flatten_fields, bind, Except.instMonad, pyGet,
    h1, h2, h3, h4, h5, h6, h7, h8, h9, h10, h11, h12, h13, h14, h15, h16, h17, h18, h19,
    Except.bind, Except.pure, Except.isOk, Except.toBool]

theorem flatten_fields_nonobj (d : JSON) (h : isObj d = false) :
    flatten_fields d = .error .attributeError := by
  cases d <;> first | rfl | simp [isObj] at h

theorem flatten_keys {now : String} {d : JSON} {r : Record}
    (h : flatten_weather_data now d = .ok r) :
    r.map Prod.fst = fieldnames := by
  unfold flatten_weather_data at h
  cases hf : flatten_fields d with
  | error e => rw [hf] at h; simp [Except.map] at h
  | ok rest =>
    rw [hf] at h
    simp only [Except.map, Except.ok.injEq] at h
    rw [← h]
    have := flatten_fields_keys hf
    simp only [List.map_cons, this]
    rfl

theorem record_all_keys {r : Record} (h : r.map Prod.fst = fieldnames) :
    r.all (fun kv => fieldnames.contains kv.1) = true := by
  rw [List.all_eq_true]
  intro kv hkv
  have hm : kv.1 ∈ r.map Prod.fst := List.mem_map_of_mem Prod.fst hkv
  rw [h] at hm
  exact List.elem_eq_true_of_mem hm

/-- A concrete filename check: the default output path for the coordinates
of the example record, with year 2023. -/
theorem get_csv_filename_concrete :
    get_csv_filename 2023 wFlat = "2023-16.05-108.2.csv" := by decide

/-! ### Claim theorems -/

/-- C1, counterexample: on a non-object top-level value (a JSON array), the
Flattener does NOT return a record (let alone an all-null one): the very
first lookup `data.get('dt')` raises `AttributeError`, so no `weather: []`
record of any shape is produced, contradicting the claim that it never
throws and yields an all-null record there. -/
theorem flatten_nonobject_raises :
    ¬ ∃ r, flatten_weather_data "2023-11-14T12:00:00" (JSON.arr []) = .ok r := by
  rintro ⟨r, h⟩
  exact Except.noConfusion h

/-- C1, amended: for any JSON object whose consulted nested containers are
usable where present (`sys`/`coord`/`main`/`wind`/`clouds` objects;
`weather` a non-empty list with an object head — absence of any of them is
fine), the Flattener returns a record with exactly the 25 defined field
names, in order, without raising; a non-object top-level value instead
raises `AttributeError` rather than yielding an all-null record. -/
theorem flatten_total_on_wellShaped (now : String) (d : JSON)
    (h : wellShaped d = true) :
    (∃ r, flatten_weather_data now d = .ok r ∧ r.map Prod.fst = fieldnames ∧
      r.length = 25) ∧
    (∀ d', isObj d' = false →
      flatten_weather_data now d' = .error .attributeError) := by
  constructor
  · rcases d with _ | b | n | m | s | xs | kvs
    · simp [wellShaped] at h
    · simp [wellShaped] at h
    · simp [wellShaped] at h
    · simp [wellShaped] at h
    · simp [wellShaped] at h
    · simp [wellShaped] at h
    · obtain ⟨l, hl⟩ := flatten_fields_ok kvs h
      have hflat : flatten_weather_data now (JSON.obj kvs) =
          .ok (("timestamp", JSON.str now) :: l) := by
        unfold flatten_weather_data; rw [hl]; rfl
      have hkeys := flatten_keys hflat
      refine ⟨_, hflat, hkeys, ?_⟩
      have hlen : (("timestamp", JSON.str now) :: l).length =
          ((("timestamp", JSON.str now) :: l).map Prod.fst).length :=
        (List.length_map _ _).symm
      rw [hlen, hkeys]
      rfl
  · intro d' h'
    unfold flatten_weather_data
    rw [flatten_fields_nonobj d' h']
    rfl

/-- C1, witness: the example input is well-shaped and the amended theorem
applies to it. -/
theorem flatten_total_on_wellShaped_witness :
    wellShaped exampleInput = true ∧
    ((∃ r, flatten_weather_data "2023-11-14T12:00:00" exampleInput = .ok r ∧
        r.map Prod.fst = fieldnames ∧ r.length = 25) ∧
     (∀ d', isObj d' = false →
        flatten_weather_data "2023-11-14T12:00:00" d' = .error .attributeError)) :=
  ⟨by decide, flatten_total_on_wellShaped "2023-11-14T12:00:00" exampleInput (by decide)⟩

/-- C2: evaluating the Flattener at the failing input `{"weather": []}`:
`data.get('weather', [{}])` returns the empty list itself (the default only
covers absence), so `[0]` raises `IndexError` — the three weather fields
are not null, the whole transform dies.  With `weather` absent entirely,
the default `[{}]` does apply and the three fields are null as claimed. -/
theorem weather_empty_list_raises :
    flatten_weather_data "2023-11-14T12:00:00" (JSON.obj [("weather", JSON.arr [])]) =
      .error .indexError ∧
    (∃ r, flatten_weather_data "2023-11-14T12:00:00" (JSON.obj []) = .ok r ∧
      lookupKey r "weather_id" = some .null ∧
      lookupKey r "weather_main" = some .null ∧
      lookupKey r "weather_description" = some .null) :=
  ⟨rfl, ⟨_, rfl, rfl, rfl, rfl⟩⟩

/-- C3, counterexample: a non-decodable body (here the standard
`json.loads` failure message for an empty body) is NOT turned into the
clean diagnostic-and-exit path: `json.JSONDecodeError` is not a `URLError`,
so `except URLError` does not catch it and no `sys.exit` happens — the
exception propagates out of `fetch_weather_data`. -/
theorem fetch_json_decode_error_propagates :
    ¬ ∃ c m, fetch_weather_data
      (.response (.error "Expecting value: line 1 column 1 (char 0)")) = .exited c m := by
  rintro ⟨c, m, h⟩
  exact FetchResult.noConfusion h

/-- C3, amended: a network-level `URLError` is caught, a diagnostic naming
the error is printed to stderr and the process exits with code 1, with no
exception reaching a caller; but a non-decodable/non-JSON body raises an
uncaught decode error that propagates out of the Fetcher (the process
still dies, via the default traceback, not via the `FetchError` path); a
parsed body is returned unvalidated. -/
theorem fetch_error_routing (msg jsonErr : String) :
    fetch_weather_data (.urlError msg) = .exited 1 ("Error fetching data: " ++ msg) ∧
    fetch_weather_data (.response (.error jsonErr)) = .uncaught jsonErr ∧
    (∀ d, fetch_weather_data (.response (.ok d)) = .ok d) :=
  ⟨rfl, rfl, fun _ => rfl⟩

/-- C4: starting from an absent file, two sequential Writer calls on
records whose keys all lie in the schema produce exactly the header line
followed by the two data rows, in call order, and both calls complete. -/
theorem header_once (r1 r2 : Record)
    (h1 : r1.all (fun kv => fieldnames.contains kv.1) = true)
    (h2 : r2.all (fun kv => fieldnames.contains kv.1) = true) :
    append_to_csv r1 none = ([csvHeaderLine, csvRowLine r1], true) ∧
    append_to_csv r2 (some (append_to_csv r1 none).1) =
      ([csvHeaderLine, csvRowLine r1, csvRowLine r2], true) := by
  have e1 : append_to_csv r1 none = ([csvHeaderLine, csvRowLine r1], true) := by
    unfold append_to_csv writerow
    rw [h1]
    simp [csvRowLine]
  refine ⟨e1, ?_⟩
  rw [e1]
  unfold append_to_csv writerow
  rw [h2]
  simp [csvRowLine]

/-- C4, witness: two concrete records run through the header-once
invariant. -/
theorem header_once_witness :
    (wRecord1.all (fun kv => fieldnames.contains kv.1) = true) ∧
    (wRecord2.all (fun kv => fieldnames.contains kv.1) = true) ∧
    (append_to_csv wRecord1 none = ([csvHeaderLine, csvRowLine wRecord1], true) ∧
     append_to_csv wRecord2 (some (append_to_csv wRecord1 none).1) =
       ([csvHeaderLine, csvRowLine wRecord1, csvRowLine wRecord2], true)) :=
  ⟨by decide, by decide, header_once wRecord1 wRecord2 (by decide) (by decide)⟩

/-- C5: the end-to-end example of §8: flattening the example response gives
exactly the claimed record — `city_id = 42`, `city_name = "Danang"`,
`country = "VN"`, `lat = 16.05`, `lon = 108.2`, `weather_id = 800`,
`weather_main = "Clear"`, `temp = 30.1`, `sea_level_pressure` and
`grnd_level_pressure` null, `temp_min`/`temp_max` null (absent in `main`),
and every remaining field filled per the mapping, with `timestamp` the
clock string. -/
theorem flatten_example_record :
    flatten_weather_data "2023-11-14T12:00:00" exampleInput = .ok exampleOutput := rfl

/-- C6, counterexample: with `CSV_OUTPUT_PATH` set to the empty string the
claim requires the empty string to be used verbatim as the path, but the
Python `or` treats it as falsy and the computed fallback filename is used
instead. -/
theorem csv_output_path_empty_env_ignored :
    resolve_csv_path (some "") "2023-16.05-108.2.csv" = "2023-16.05-108.2.csv" ∧
    resolve_csv_path (some "") "2023-16.05-108.2.csv" ≠ "" := by
  refine ⟨rfl, ?_⟩
  decide

/-- C6, amended: a non-empty `CSV_OUTPUT_PATH` is used verbatim; when the
variable is unset OR set to the empty string, the path is the computed
`{year}-{lat}-{lon}.csv` where `lat`/`lon` are the values of the flattened
record (formatted by Python `str`, `None` included). -/
theorem output_path_resolution (s f : String) (year : Nat) (flat : Record)
    (h : s ≠ "") :
    resolve_csv_path (some s) f = s ∧
    resolve_csv_path none f = f ∧
    resolve_csv_path (some "") f = f ∧
    get_csv_filename year flat =
      toString year ++ "-" ++ pyStr ((lookupKey flat "lat").getD .null) ++ "-" ++
        pyStr ((lookupKey flat "lon").getD .null) ++ ".csv" := by
  refine ⟨?_, rfl, rfl, rfl⟩
  have he : s.isEmpty = false := by
    rw [Bool.eq_false_iff]
    intro hemp
    exact h ((String.isEmpty_iff s).mp hemp)
  simp [resolve_csv_path, he]

/-- C6, witness: concrete path resolution for a set variable, an unset one,
an empty one, and the concrete coordinate record. -/
theorem output_path_resolution_witness :
    ("weather.csv" : String) ≠ "" ∧
    (resolve_csv_path (some "weather.csv") "fallback.csv" = "weather.csv" ∧
     resolve_csv_path none "fallback.csv" = "fallback.csv" ∧
     resolve_csv_path (some "") "fallback.csv" = "fallback.csv" ∧
     get_csv_filename 2023 wFlat =
       toString 2023 ++ "-" ++ pyStr ((lookupKey wFlat "lat").getD .null) ++ "-" ++
         pyStr ((lookupKey wFlat "lon").getD .null) ++ ".csv") :=
  ⟨by decide, output_path_resolution "weather.csv" "fallback.csv" 2023 wFlat (by decide)⟩

/-- C7: every record the Flattener emits is serialized by the Writer
without error, its cells being exactly the 25 fieldnames' values in fixed
header order, with a null value rendering as the empty field — so column
set and order are identical for every written row, whatever source fields
were present. -/
theorem writer_fixed_order_rows (now : String) (d : JSON) (r : Record)
    (h : flatten_weather_data now d = .ok r) :
    writerow fieldnames r = .ok (fieldnames.map (fun f => pyCsvCell (lookupKey r f))) ∧
    (fieldnames.map (fun f => pyCsvCell (lookupKey r f))).length = 25 ∧
    (∀ f, lookupKey r f = some .null → pyCsvCell (lookupKey r f) = "") := by
  have hkeys := flatten_keys h
  refine ⟨?_, ?_, ?_⟩
  · unfold writerow
    rw [record_all_keys hkeys]
    simp
  · rw [List.length_map]; rfl
  · intro f hf; rw [hf]; rfl

/-- C7, witness: the example record run through the row-serialization
theorem. -/
theorem writer_fixed_order_rows_witness :
    flatten_weather_data "2023-11-14T12:00:00" exampleInput = .ok exampleOutput ∧
    (writerow fieldnames exampleOutput =
        .ok (fieldnames.map (fun f => pyCsvCell (lookupKey exampleOutput f))) ∧
      (fieldnames.map (fun f => pyCsvCell (lookupKey exampleOutput f))).length = 25 ∧
      (∀ f, lookupKey exampleOutput f = some .null →
        pyCsvCell (lookupKey exampleOutput f) = "")) :=
  ⟨rfl, writer_fixed_order_rows "2023-11-14T12:00:00" exampleInput exampleOutput rfl⟩

/-- C8: on a transport failure, `main` exits with code 1 (non-zero) after
the stderr diagnostic, and the filesystem is returned unchanged — no file
is created or modified on the fetch-error path. -/
theorem transport_failure_no_write (msg now : String) (year : Nat)
    (env : Option String) (fs : String → Option (List String)) :
    run_main (.urlError msg) now year env fs =
      (.exited 1 ("Error fetching data: " ++ msg), fs) ∧ (1 : Nat) ≠ 0 :=
  ⟨rfl, one_ne_zero⟩

/-- C9: two runs of the Flattener on the same input at different clock
readings agree on everything except the `timestamp` field (and they fail
identically when they fail): every field other than `timestamp` is a
deterministic projection of the input. -/
theorem flatten_deterministic_except_timestamp (now1 now2 : String) (d : JSON) :
    (flatten_weather_data now1 d).map (List.filter (fun kv => kv.1 != "timestamp")) =
    (flatten_weather_data now2 d).map (List.filter (fun kv => kv.1 != "timestamp")) := by
  unfold flatten_weather_data
  cases flatten_fields d <;> rfl

/-- C10: the key list of every record the Flattener emits is exactly the
`fieldnames` list hardcoded in the Writer, in the same order, and
consequently `append_to_csv` accepts such a record (no extra-key
`ValueError`) whatever the prior state of the file. -/
theorem flatten_matches_writer_schema (now : String) (d : JSON) (r : Record)
    (h : flatten_weather_data now d = .ok r) :
    r.map Prod.fst = fieldnames ∧ ∀ file, (append_to_csv r file).2 = true := by
  have hkeys := flatten_keys h
  have hall := record_all_keys hkeys
  refine ⟨hkeys, fun file => ?_⟩
  unfold append_to_csv writerow
  rw [hall]
  simp

/-- C10, witness: the schema equality realized on the example record. -/
theorem flatten_matches_writer_schema_witness :
    flatten_weather_data "2023-11-14T12:00:00" exampleInput = .ok exampleOutput ∧
    (exampleOutput.map Prod.fst = fieldnames ∧
      ∀ file, (append_to_csv exampleOutput file).2 = true) :=
  ⟨rfl, flatten_matches_writer_schema "2023-11-14T12:00:00" exampleInput exampleOutput rfl⟩
